import Mathlib

/-!
Verification development for the opencode-mystatus quota orchestrator.

The orchestration core lives in plugin/mystatus.ts (queryWithTimeout,
MyStatusPlugin.execute, collectResult) and plugin/lib/copilot.ts
(queryCopilotUsage).  The asynchronous world is embedded shallowly: the
runtime behavior of a provider query function is a value of QueryBehavior
(fulfills at a time, rejects at a time, throws synchronously, or never
settles), and Promise.race against the timeout timer is the function
raceWithTimer, which picks whichever contestant settles first.
-/

namespace MyStatus

/-- Translation of the QueryResult interface from plugin/lib/types.ts as it
is used by mystatus.ts and copilot.ts: a success flag plus optional output
and error strings.  A missing field is none; JavaScript truthiness of a
string field holds when the field is present and non-empty. -/
structure QueryResult where
  success : Bool
  output : Option String := none
  error : Option String := none
deriving DecidableEq

/-- JavaScript truthiness of an optional string field: present and
non-empty. -/
def optTruthy : Option String → Bool
  | none => false
  | some s => s ≠ ""

/-- The translation-table entries of plugin/lib/i18n.ts that the
orchestration core reads (the table is selected once per process by
detectLanguage; the orchestrator is parametric in it). -/
structure Translations where
  timeoutError : Nat → String
  noAccounts : String
  queryFailed : String
  copilotApiError : Nat → String → String

/-- The English entry of the translations table in plugin/lib/i18n.ts. -/
def translations_en : Translations where
  timeoutError := fun seconds => "Request timeout (" ++ toString seconds ++ "s)"
  noAccounts := "No configured accounts found.\n\nSupported account types:\n- OpenAI (Plus/Team/Pro subscribers)\n- Zhipu AI (Coding Plan)\n- Z.ai (Coding Plan)\n- Google Cloud (Antigravity)"
  queryFailed := "❌ Failed to query accounts:\n"
  copilotApiError := fun status text =>
    "GitHub Copilot API request failed (" ++ toString status ++ "): " ++ text

/-- Runtime behavior of one provider query function, the denotation of the
promise returned by queryFn() in mystatus.ts: it fulfills with a
QueryResult-or-null, rejects with an error message, throws synchronously
before returning a promise, or never settles. -/
inductive QueryBehavior where
  | settles (value : Option QueryResult)
  | rejects (msg : String)
  | throwsSync (msg : String)
  | hangs
deriving DecidableEq

/-- One contestant of a Promise.race: it settles at a given virtual time
with a fulfillment or a rejection, or it never settles. -/
inductive RaceEntry where
  | settledAt (time : Nat) (value : Except String (Option QueryResult))
  | never

/-- Promise.race of a query promise against the timeout timer of
queryWithTimeout in mystatus.ts.  The timer always fires (at timerTime,
fulfilling with timerValue); the race settles with whichever contestant
settles first, the query winning ties. -/
def raceWithTimer (query : RaceEntry) (timerTime : Nat)
    (timerValue : Except String (Option QueryResult)) :
    Except String (Option QueryResult) :=
  match query with
  | .settledAt t v => if t ≤ timerTime then v else timerValue
  | .never => timerValue

/-- The QueryResult produced by the timer branch of queryWithTimeout in
mystatus.ts: success false, error tagged with the platform name and the
localized timeout message over the budget in seconds. -/
def timeoutFailure (tr : Translations) (platformName : String)
    (timeoutMs : Nat) : QueryResult :=
  { success := false
    error := some ("[" ++ platformName ++ "] " ++ tr.timeoutError (timeoutMs / 1000)) }

/-- The QueryResult produced by the catch block of queryWithTimeout in
mystatus.ts: success false, error tagged with the platform name and the
caught error message. -/
def caughtFailure (platformName msg : String) : QueryResult :=
  { success := false
    error := some ("[" ++ platformName ++ "] " ++ msg) }

/-- Translation of queryWithTimeout from mystatus.ts.  A synchronous throw
of queryFn() happens inside the try block before the race, so it is caught
directly; otherwise the query promise is raced against the timer, a
fulfillment of the race is returned as is, and a rejection of the race is
caught and converted by the catch block. -/
def queryWithTimeout (tr : Translations) (behavior : QueryBehavior)
    (completionTime timeoutMs : Nat) (platformName : String) :
    Option QueryResult :=
  match behavior with
  | .throwsSync msg => some (caughtFailure platformName msg)
  | b =>
    let entry : RaceEntry :=
      match b with
      | .settles v => .settledAt completionTime (.ok v)
      | .rejects m => .settledAt completionTime (.error m)
      | _ => .never
    match raceWithTimer entry timeoutMs
        (.ok (some (timeoutFailure tr platformName timeoutMs))) with
    | .ok r => r
    | .error msg => some (caughtFailure platformName msg)

/-- Translation of the PlatformQuery registry entries of mystatus.ts,
with queryFn replaced by its runtime denotation: the behavior of the
promise plus the virtual time at which it settles (ignored for a
synchronous throw and for a promise that never settles). -/
structure PlatformQuery where
  name : String
  title : String
  behavior : QueryBehavior
  completionTime : Nat
  timeoutMs : Nat
deriving DecidableEq

/-- One element of the Promise.allSettled result array in execute. -/
inductive Settled where
  | fulfilled (value : Option QueryResult)
  | rejected (reason : String)
deriving DecidableEq

/-- Translation of the settled-result conversion loop of execute in
mystatus.ts: a fulfilled task yields its value, a rejected task is
converted to a failure tagged with the platform name. -/
def settledToResult (platformName : String) (s : Settled) : Option QueryResult :=
  match s with
  | .fulfilled v => v
  | .rejected reason =>
    some { success := false
           error := some ("[" ++ platformName ++ "] " ++ reason) }

/-- Outcome of one platform task in a run: queryWithTimeout never rejects
in the model (its catch block is total), so Promise.allSettled always
reports it fulfilled. -/
def platformOutcome (tr : Translations) (p : PlatformQuery) : Option QueryResult :=
  settledToResult p.name
    (.fulfilled (queryWithTimeout tr p.behavior p.completionTime p.timeoutMs p.name))

/-- Translation of collectResult from mystatus.ts, with the two mutated
arrays passed and returned explicitly. -/
def collectResult (result : Option QueryResult) (title : String)
    (results errors : List String) : List String × List String :=
  match result with
  | none => (results, errors)
  | some r =>
    if r.success && optTruthy r.output then
      let results1 := if results.length > 0 then results ++ [""] else results
      (results1 ++ [title, "", r.output.getD ""], errors)
    else if optTruthy r.error then
      (results, errors ++ [r.error.getD ""])
    else
      (results, errors)

/-- Body of the collection loop of execute in mystatus.ts: one
collectResult call over a platform task and the two accumulator arrays. -/
def collectStep (tr : Translations) (acc : List String × List String)
    (p : PlatformQuery) : List String × List String :=
  collectResult (platformOutcome tr p) p.title acc.1 acc.2

/-- The collection loop of execute in mystatus.ts: fold collectResult over
the registry-ordered outcomes, starting from two empty arrays. -/
def collectAll (tr : Translations) (platforms : List PlatformQuery) :
    List String × List String :=
  platforms.foldl (collectStep tr) ([], [])

/-- Translation of JavaScript Array.prototype.join with separator newline,
as used by execute on outputResults and errors. -/
def joinLines : List String → String
  | [] => ""
  | [x] => x
  | x :: xs => x ++ "\n" ++ joinLines xs

/-- Translation of the output-composition tail of execute in mystatus.ts:
the no-accounts message when both lists are empty, otherwise the joined
success entries, followed when errors exist by a blank line (only when the
success text is non-empty) and the query-failed header and the joined
errors. -/
def composeReport (tr : Translations) (outputResults errors : List String) : String :=
  if outputResults.length = 0 ∧ errors.length = 0 then tr.noAccounts
  else
    let output := joinLines outputResults
    if errors.length > 0 then
      (if output ≠ "" then output ++ "\n\n" else output)
        ++ tr.queryFailed ++ joinLines errors
    else output

/-- The full post-auth run of execute in mystatus.ts over a registry of
platform tasks: collect all outcomes in registry order and compose the
report. -/
def runPlatforms (tr : Translations) (platforms : List PlatformQuery) : String :=
  composeReport tr (collectAll tr platforms).1 (collectAll tr platforms).2

/-- Predicate for an outcome that contributes a success entry in
collectResult: success flag set and truthy output. -/
def isSuccessEntry (r : QueryResult) : Bool :=
  r.success && optTruthy r.output

/-- Registry-ordered list of the (title, body) success pairs of a run. -/
def successPairs (tr : Translations) (platforms : List PlatformQuery) :
    List (String × String) :=
  platforms.filterMap fun p =>
    match platformOutcome tr p with
    | none => none
    | some r =>
      if isSuccessEntry r then some (p.title, r.output.getD "") else none

/-- Registry-ordered list of the failure messages of a run. -/
def failureMsgs (tr : Translations) (platforms : List PlatformQuery) :
    List String :=
  platforms.filterMap fun p =>
    match platformOutcome tr p with
    | none => none
    | some r =>
      if isSuccessEntry r then none
      else if optTruthy r.error then some (r.error.getD "") else none

/-- Success blocks as pushed by collectResult when the results array is
already non-empty: every block is preceded by an empty separator line. -/
def successBlocksNE : List (String × String) → List String
  | [] => []
  | (ti, b) :: rest => "" :: ti :: "" :: b :: successBlocksNE rest

/-- Success blocks as pushed by collectResult starting from an empty
results array: the first block has no separator, later ones do. -/
def successBlocks0 : List (String × String) → List String
  | [] => []
  | (ti, b) :: rest => ti :: "" :: b :: successBlocksNE rest

/-- Rendering of the success pairs as the spec reads them: title line,
blank line, body, with a blank-line separator between entries. -/
def renderSuccesses : List (String × String) → String
  | [] => ""
  | [(ti, b)] => ti ++ "\n\n" ++ b
  | (ti, b) :: rest => ti ++ "\n\n" ++ b ++ "\n\n" ++ renderSuccesses rest

/-- Relation between two registry entries that differ at most in the
completion time of the underlying asynchronous call, without changing
which side of the timeout race wins. -/
def sameRace (p q : PlatformQuery) : Prop :=
  p.name = q.name ∧ p.title = q.title ∧ p.behavior = q.behavior ∧
    p.timeoutMs = q.timeoutMs ∧
    (p.completionTime ≤ p.timeoutMs ↔ q.completionTime ≤ q.timeoutMs)

/-- Translation of the CopilotAuthData fields read by queryCopilotUsage in
plugin/lib/copilot.ts (the interface itself is declared in
plugin/lib/types.ts): an auth type tag and an optional refresh token. -/
structure CopilotAuthData where
  type : String
  refresh : Option String
deriving DecidableEq

/-- Denotation of the network interaction of fetchCopilotUsage in
copilot.ts: the fetch fulfills with an ok response whose parsed body
renders (through formatCopilotUsage) to the given output, fulfills with a
non-ok response carrying a status and an error text, or rejects with an
error message. -/
inductive CopilotFetchWorld where
  | success (renderedOutput : String)
  | httpError (status : Nat) (text : String)
  | reject (msg : String)
deriving DecidableEq

/-- Translation of fetchCopilotUsage from copilot.ts over the fetch
denotation: a non-ok response throws the localized copilotApiError
message; the rendering of the usage data is abstracted as the
renderedOutput carried by the fetch world, since formatting is an external
collaborator per the spec and reads the wall clock. -/
def fetchCopilotUsage (tr : Translations) (world : CopilotFetchWorld) :
    Except String String :=
  match world with
  | .success out => .ok out
  | .httpError status text => .error (tr.copilotApiError status text)
  | .reject msg => .error msg

/-- Translation of queryCopilotUsage from copilot.ts: null when the auth
data is missing, not oauth-typed, or has a falsy refresh token; otherwise
the fetch result as a success, with any thrown error caught and returned
as a failure carrying the error message. -/
def queryCopilotUsage (authData : Option CopilotAuthData)
    (world : CopilotFetchWorld) (tr : Translations) : Option QueryResult :=
  match authData with
  | none => none
  | some a =>
    if a.type ≠ "oauth" ∨ ¬ optTruthy a.refresh then none
    else
      match fetchCopilotUsage tr world with
      | .ok out => some { success := true, output := some out }
      | .error msg => some { success := false, error := some msg }

/-- Demo registry entry whose query fulfills with body X well before the
deadline. -/
def demoA : PlatformQuery :=
  { name := "A", title := "## OpenAI Account Quota"
    behavior := .settles (some { success := true, output := some "X" })
    completionTime := 10, timeoutMs := 2000 }

/-- Demo registry entry whose query signals absent configuration. -/
def demoB : PlatformQuery :=
  { name := "B", title := "## Zhipu AI Account Quota"
    behavior := .settles none, completionTime := 10, timeoutMs := 2000 }

/-- Demo registry entry whose query rejects with message boom. -/
def demoC : PlatformQuery :=
  { name := "C", title := "## Z.ai Account Quota"
    behavior := .rejects "boom", completionTime := 10, timeoutMs := 2000 }

/-- Demo registry entry whose query never settles. -/
def demoH : PlatformQuery :=
  { name := "H", title := "## Google Cloud Account Quota"
    behavior := .hangs, completionTime := 0, timeoutMs := 2000 }

/-- Copy of demoA whose query completes later but still inside the
budget. -/
def demoA2 : PlatformQuery := { demoA with completionTime := 1500 }

/-- Copy of demoC whose query completes later but still inside the
budget. -/
def demoC2 : PlatformQuery := { demoC with completionTime := 3 }

/-- Demo registry entry whose query fulfills with a whitespace-only
body. -/
def demoBlank : PlatformQuery :=
  { demoA with behavior := .settles (some { success := true, output := some " " }) }

/-- Demo registry entry whose query fulfills with an empty body. -/
def demoEmpty : PlatformQuery :=
  { demoA with
    name := "E"
    title := "## Zhipu AI Account Quota"
    behavior := .settles (some { success := true, output := some "" }) }

/-- Demo registry entry whose query function throws synchronously. -/
def demoThrow : PlatformQuery :=
  { demoA with
    name := "T"
    title := "## Z.ai Account Quota"
    behavior := .throwsSync "kaboom" }

/-- Demo registry entry for GitHub Copilot with no auth data: its query
function resolves to the null produced by queryCopilotUsage. -/
def demoCopilotAbsent : PlatformQuery :=
  { name := "Copilot", title := "## GitHub Copilot Account Quota"
    behavior := .settles (queryCopilotUsage none (.success "out") translations_en)
    completionTime := 10, timeoutMs := 2000 }

/-- Helper: a string starting with a bracketed tag is non-empty. -/
theorem bracket_ne_empty (n m : String) : "[" ++ n ++ "] " ++ m ≠ "" := by
  intro h
  have hl := congrArg String.length h
  simp [String.length_append] at hl
  exact absurd hl.1.1.1 (by decide)

/-- Helper: the fold of collectResult from a non-empty results array
appends the separated success blocks and the failure messages, both in
registry order. -/
theorem collect_go (tr : Translations) :
    ∀ (ps : List PlatformQuery) (res errs : List String), res ≠ [] →
      ps.foldl (collectStep tr) (res, errs)
        = (res ++ successBlocksNE (successPairs tr ps),
           errs ++ failureMsgs tr ps) := by
  intro ps
  induction ps with
  | nil =>
    intro res errs _
    simp [successPairs, failureMsgs, successBlocksNE]
  | cons p rest ih =>
    intro res errs hne
    rw [List.foldl_cons]
    rcases hout : platformOutcome tr p with _ | r
    · have hstep : collectStep tr (res, errs) p = (res, errs) := by
        simp [collectStep, collectResult, hout]
      rw [hstep, ih res errs hne]
      simp [successPairs, failureMsgs, List.filterMap_cons, hout]
    · cases hs : isSuccessEntry r with
      | true =>
        have hsu : r.success = true :=
          (Bool.and_eq_true _ _ |>.mp (by simpa [isSuccessEntry] using hs)).1
        have ho : optTruthy r.output = true :=
          (Bool.and_eq_true _ _ |>.mp (by simpa [isSuccessEntry] using hs)).2
        have hlen : 0 < res.length := List.length_pos.mpr hne
        have hstep : collectStep tr (res, errs) p
            = (res ++ ["", p.title, "", r.output.getD ""], errs) := by
          simp [collectStep, collectResult, hout, hsu, ho, hlen]
        rw [hstep, ih _ errs (by simp)]
        simp [successPairs, failureMsgs, List.filterMap_cons, hout, hs,
          successBlocksNE, List.append_assoc]
      | false =>
        have hsf : (r.success && optTruthy r.output) = false := by
          simpa [isSuccessEntry] using hs
        cases he : optTruthy r.error with
        | true =>
          have hstep : collectStep tr (res, errs) p
              = (res, errs ++ [r.error.getD ""]) := by
            simp [collectStep, collectResult, hout, hsf, he]
          rw [hstep, ih res _ hne]
          simp [successPairs, failureMsgs, List.filterMap_cons, hout, hs, he,
            List.append_assoc]
        | false =>
          have hstep : collectStep tr (res, errs) p = (res, errs) := by
            simp [collectStep, collectResult, hout, hsf, he]
          rw [hstep, ih res errs hne]
          simp [successPairs, failureMsgs, List.filterMap_cons, hout, hs, he]

/-- Helper: the fold of collectResult from an empty results array produces
the unseparated first block and then separated blocks, plus the failure
messages, in registry order. -/
theorem collect_go0 (tr : Translations) :
    ∀ (ps : List PlatformQuery) (errs : List String),
      ps.foldl (collectStep tr) ([], errs)
        = (successBlocks0 (successPairs tr ps), errs ++ failureMsgs tr ps) := by
  intro ps
  induction ps with
  | nil =>
    intro errs
    simp [successPairs, failureMsgs, successBlocks0]
  | cons p rest ih =>
    intro errs
    rw [List.foldl_cons]
    rcases hout : platformOutcome tr p with _ | r
    · have hstep : collectStep tr ([], errs) p = ([], errs) := by
        simp [collectStep, collectResult, hout]
      rw [hstep, ih errs]
      simp [successPairs, failureMsgs, List.filterMap_cons, hout]
    · cases hs : isSuccessEntry r with
      | true =>
        have hsu : r.success = true :=
          (Bool.and_eq_true _ _ |>.mp (by simpa [isSuccessEntry] using hs)).1
        have ho : optTruthy r.output = true :=
          (Bool.and_eq_true _ _ |>.mp (by simpa [isSuccessEntry] using hs)).2
        have hstep : collectStep tr ([], errs) p
            = ([p.title, "", r.output.getD ""], errs) := by
          simp [collectStep, collectResult, hout, hsu, ho]
        rw [hstep, collect_go tr rest _ errs (by simp)]
        simp [successPairs, failureMsgs, List.filterMap_cons, hout, hs,
          successBlocks0]
      | false =>
        have hsf : (r.success && optTruthy r.output) = false := by
          simpa [isSuccessEntry] using hs
        cases he : optTruthy r.error with
        | true =>
          have hstep : collectStep tr ([], errs) p
              = ([], errs ++ [r.error.getD ""]) := by
            simp [collectStep, collectResult, hout, hsf, he]
          rw [hstep, ih _]
          simp [successPairs, failureMsgs, List.filterMap_cons, hout, hs, he,
            List.append_assoc]
        | false =>
          have hstep : collectStep tr ([], errs) p = ([], errs) := by
            simp [collectStep, collectResult, hout, hsf, he]
          rw [hstep, ih errs]
          simp [successPairs, failureMsgs, List.filterMap_cons, hout, hs, he]

/-- Helper: the collection loop equals the registry-ordered success blocks
and failure messages. -/
theorem collectAll_eq (tr : Translations) (ps : List PlatformQuery) :
    collectAll tr ps = (successBlocks0 (successPairs tr ps), failureMsgs tr ps) := by
  simpa using collect_go0 tr ps []

/-- Helper: queryWithTimeout depends on the completion time only through
which side of the race it lets win. -/
theorem queryWithTimeout_time_congr (tr : Translations) (b : QueryBehavior)
    (t t' T : Nat) (name : String)
    (h : t ≤ T ↔ t' ≤ T) :
    queryWithTimeout tr b t T name = queryWithTimeout tr b t' T name := by
  cases b with
  | settles v =>
    by_cases ht : t ≤ T
    · simp [queryWithTimeout, raceWithTimer, ht, h.mp ht]
    · have ht' : ¬ t' ≤ T := fun hh => ht (h.mpr hh)
      simp [queryWithTimeout, raceWithTimer, ht, ht']
  | rejects m =>
    by_cases ht : t ≤ T
    · simp [queryWithTimeout, raceWithTimer, ht, h.mp ht]
    · have ht' : ¬ t' ≤ T := fun hh => ht (h.mpr hh)
      simp [queryWithTimeout, raceWithTimer, ht, ht']
  | throwsSync m => rfl
  | hangs => rfl

/-- Helper: related registry entries produce the same outcome. -/
theorem platformOutcome_congr (tr : Translations) (p q : PlatformQuery)
    (h : sameRace p q) : platformOutcome tr p = platformOutcome tr q := by
  obtain ⟨hn, _, hb, hT, hrace⟩ := h
  unfold platformOutcome settledToResult
  rw [hn, hb, hT]
  rw [queryWithTimeout_time_congr tr q.behavior p.completionTime q.completionTime
    q.timeoutMs q.name (hT ▸ hrace)]

/-- Helper: the collection fold is invariant under changes of completion
times that preserve each race winner. -/
theorem foldl_collect_congr (tr : Translations) :
    ∀ (ps qs : List PlatformQuery), List.Forall₂ sameRace ps qs →
      ∀ acc, ps.foldl (collectStep tr) acc = qs.foldl (collectStep tr) acc := by
  intro ps qs h
  induction h with
  | nil => intro acc; rfl
  | cons hpq _ ih =>
    intro acc
    rw [List.foldl_cons, List.foldl_cons]
    have hstep : ∀ x y, sameRace x y → collectStep tr acc x = collectStep tr acc y := by
      intro x y hxy
      unfold collectStep
      rw [platformOutcome_congr tr x y hxy, hxy.2.1]
    rw [hstep _ _ hpq]
    exact ih _

/-- Helper: joinLines of a list with at least two elements splits off the
head with a newline. -/
theorem joinLines_cons (x : String) (xs : List String) (h : xs ≠ []) :
    joinLines (x :: xs) = x ++ "\n" ++ joinLines xs := by
  cases xs with
  | nil => exact absurd rfl h
  | cons y ys => rfl

/-- Helper: joinLines of a list with at least two elements is non-empty. -/
theorem joinLines_two_ne (x y : String) (rest : List String) :
    joinLines (x :: y :: rest) ≠ "" := by
  intro h
  rw [joinLines_cons x (y :: rest) (by simp)] at h
  have hl := congrArg String.length h
  simp [String.length_append] at hl
  exact absurd hl.1.2 (by decide)

/-- Helper: the joined success blocks read as the spec does: title line,
blank line, body, blank-line separator between entries. -/
theorem joinLines_blocksNE (l : List (String × String)) (ti b : String) :
    joinLines (ti :: "" :: b :: successBlocksNE l) = renderSuccesses ((ti, b) :: l) := by
  induction l generalizing ti b with
  | nil =>
    show ti ++ "\n" ++ ("" ++ "\n" ++ b) = ti ++ "\n\n" ++ b
    apply String.ext
    simp [String.data_append]
  | cons hd rest ih =>
    obtain ⟨ti2, b2⟩ := hd
    show ti ++ "\n" ++ ("" ++ "\n" ++ (b ++ "\n" ++
      joinLines ("" :: ti2 :: "" :: b2 :: successBlocksNE rest))) = _
    rw [joinLines_cons "" (ti2 :: "" :: b2 :: successBlocksNE rest) (by simp),
      ih ti2 b2]
    show _ = ti ++ "\n\n" ++ b ++ "\n\n" ++ renderSuccesses ((ti2, b2) :: rest)
    apply String.ext
    simp [String.data_append]

/-- Helper: joinLines of the success blocks equals the spec reading of
the success list. -/
theorem joinLines_blocks0 (l : List (String × String)) :
    joinLines (successBlocks0 l) = renderSuccesses l := by
  cases l with
  | nil => rfl
  | cons hd rest =>
    obtain ⟨ti, b⟩ := hd
    exact joinLines_blocksNE rest ti b

/-- Helper: dropping a registry entry whose collection step is the
identity leaves the collection loop unchanged. -/
theorem collectAll_skip (tr : Translations) (pre post : List PlatformQuery)
    (p : PlatformQuery)
    (h : ∀ acc : List String × List String, collectStep tr acc p = acc) :
    collectAll tr (pre ++ p :: post) = collectAll tr (pre ++ post) := by
  unfold collectAll
  rw [List.foldl_append, List.foldl_cons, h, ← List.foldl_append]

/-- Helper: dropping an element sent to none by the filter leaves a
filterMap unchanged. -/
theorem filterMap_skip {α β : Type} (f : α → Option β)
    (pre post : List α) (a : α) (h : f a = none) :
    (pre ++ a :: post).filterMap f = (pre ++ post).filterMap f := by
  simp [List.filterMap_append, List.filterMap_cons, h]

/-- C1: every error raised by a provider task is caught at the task
boundary and converted to a Failure tagged with the platform identifier:
a synchronous throw of the query function, a rejection of its promise
that wins the race, a rejection that loses the race (surfaced as the
timeout Failure produced by the race, also identifier-tagged), and a
hypothetical rejection reaching Promise.allSettled.  The orchestrator run
itself never rejects: runPlatforms is a total function by construction. -/
theorem taskBoundary_errors_caught (tr : Translations) (name m reason : String)
    (time timeoutMs : Nat) :
    queryWithTimeout tr (.throwsSync m) time timeoutMs name
        = some (caughtFailure name m)
    ∧ (time ≤ timeoutMs →
        queryWithTimeout tr (.rejects m) time timeoutMs name
          = some (caughtFailure name m))
    ∧ (¬ time ≤ timeoutMs →
        queryWithTimeout tr (.rejects m) time timeoutMs name
          = some (timeoutFailure tr name timeoutMs))
    ∧ settledToResult name (.rejected reason) = some (caughtFailure name reason) := by
  refine ⟨rfl, ?_, ?_, rfl⟩
  · intro h
    simp [queryWithTimeout, raceWithTimer, h]
  · intro h
    simp [queryWithTimeout, raceWithTimer, h]

/-- Witness for C1: a query rejecting with ECONNRESET before the deadline
surfaces as the tagged Failure. -/
theorem taskBoundary_errors_caught_witness :
    queryWithTimeout translations_en (.rejects "ECONNRESET") 5 2000 "OpenAI"
      = some (caughtFailure "OpenAI" "ECONNRESET") :=
  (taskBoundary_errors_caught translations_en "OpenAI" "ECONNRESET" "r" 5 2000).2.1
    (by decide)

/-- C2: the merged report lists success entries and failure messages in
registry-declaration order (the collection loop equals the registry-order
filters of the outcomes), and the report is unchanged under any change of
the completion times of the underlying asynchronous calls that does not
change which side of each timeout race wins. -/
theorem merge_registry_order (tr : Translations) (ps qs : List PlatformQuery)
    (h : List.Forall₂ sameRace ps qs) :
    (collectAll tr ps).1 = successBlocks0 (successPairs tr ps)
    ∧ (collectAll tr ps).2 = failureMsgs tr ps
    ∧ runPlatforms tr ps = runPlatforms tr qs := by
  refine ⟨by rw [collectAll_eq], by rw [collectAll_eq], ?_⟩
  unfold runPlatforms collectAll
  rw [foldl_collect_congr tr ps qs h]

/-- Witness for C2: permuting the completion order of two providers (the
first finishing last instead of first) leaves the report unchanged. -/
theorem merge_registry_order_witness :
    runPlatforms translations_en [demoA, demoC]
      = runPlatforms translations_en [demoA2, demoC2] :=
  (merge_registry_order translations_en [demoA, demoC] [demoA2, demoC2]
    (List.Forall₂.cons ⟨rfl, rfl, rfl, rfl, by decide⟩
      (List.Forall₂.cons ⟨rfl, rfl, rfl, rfl, by decide⟩ List.Forall₂.nil))).2.2

/-- C3: a provider whose query never settles resolves, through the race,
to the standardized timeout Failure carrying the budget in seconds, and
its message appears in the error list of the run; the run itself still
completes, runPlatforms being total by construction. -/
theorem timeout_surfaced (tr : Translations) (ps : List PlatformQuery)
    (p : PlatformQuery) (hmem : p ∈ ps) (hb : p.behavior = .hangs) :
    platformOutcome tr p = some (timeoutFailure tr p.name p.timeoutMs)
    ∧ ("[" ++ p.name ++ "] " ++ tr.timeoutError (p.timeoutMs / 1000))
        ∈ (collectAll tr ps).2 := by
  have hout : platformOutcome tr p = some (timeoutFailure tr p.name p.timeoutMs) := by
    simp [platformOutcome, settledToResult, queryWithTimeout, raceWithTimer, hb]
  refine ⟨hout, ?_⟩
  rw [collectAll_eq]
  simp only [failureMsgs]
  rw [List.mem_filterMap]
  refine ⟨p, hmem, ?_⟩
  rw [hout]
  simp [timeoutFailure, isSuccessEntry, optTruthy]
  exact bracket_ne_empty _ _

/-- Witness for C3: a hanging provider with a 2000 ms budget contributes
the 2-second timeout message to the error list. -/
theorem timeout_surfaced_witness :
    "[H] Request timeout (2s)" ∈ (collectAll translations_en [demoA, demoH]).2 :=
  (timeout_surfaced translations_en [demoA, demoH] demoH (by decide) rfl).2

/-- C6: a run in which the collection loop leaves both the success list
and the error list empty returns exactly the fixed no-accounts message. -/
theorem empty_lists_no_accounts (tr : Translations) (ps : List PlatformQuery)
    (h : collectAll tr ps = ([], [])) :
    runPlatforms tr ps = tr.noAccounts := by
  unfold runPlatforms
  rw [h]
  rfl

/-- Witness for C6: a registry whose only provider is absent yields the
no-accounts message. -/
theorem empty_lists_no_accounts_witness :
    runPlatforms translations_en [demoB] = translations_en.noAccounts :=
  empty_lists_no_accounts translations_en [demoB] (by decide)

/-- C9: a query promise that fulfills no later than the deadline wins the
race and queryWithTimeout returns exactly its value, unchanged, including
the null that signals absent configuration; when the timer wins instead,
the result is the timeout Failure. -/
theorem race_settled_passthrough (tr : Translations) (v : Option QueryResult)
    (time timeoutMs : Nat) (name : String) :
    (time ≤ timeoutMs →
      queryWithTimeout tr (.settles v) time timeoutMs name = v)
    ∧ (timeoutMs < time →
      queryWithTimeout tr (.settles v) time timeoutMs name
        = some (timeoutFailure tr name timeoutMs)) := by
  constructor
  · intro h
    simp [queryWithTimeout, raceWithTimer, h]
  · intro h
    simp [queryWithTimeout, raceWithTimer, Nat.not_le.mpr h]

/-- Witness for C9: a null fulfillment before the deadline passes through
unchanged. -/
theorem race_settled_passthrough_witness :
    queryWithTimeout translations_en (.settles none) 10 2000 "Google" = none :=
  (race_settled_passthrough translations_en none 10 2000 "Google").1 (by decide)

/-- C4: when the merged success list is non-empty the report is the
success entries rendered as title line, blank line, body, separated by
blank lines, and when the error list is also non-empty this is followed
by a blank line, the fixed query-failed header, and the error messages
one per line. -/
theorem report_format (tr : Translations) (ps : List PlatformQuery)
    (h : successPairs tr ps ≠ []) :
    runPlatforms tr ps
      = renderSuccesses (successPairs tr ps)
        ++ (if failureMsgs tr ps = [] then ""
            else "\n\n" ++ tr.queryFailed ++ joinLines (failureMsgs tr ps)) := by
  unfold runPlatforms
  rw [collectAll_eq]
  obtain ⟨⟨ti, b⟩, sp, hsp⟩ : ∃ hd tl, successPairs tr ps = hd :: tl := by
    cases hsp : successPairs tr ps with
    | nil => exact absurd hsp h
    | cons hd tl => exact ⟨hd, tl, rfl⟩
  rw [hsp]
  show composeReport tr (ti :: "" :: b :: successBlocksNE sp) (failureMsgs tr ps) = _
  unfold composeReport
  rw [if_neg (by simp)]
  cases hfm : failureMsgs tr ps with
  | nil =>
    rw [if_neg (by simp)]
    rw [joinLines_blocksNE sp ti b]
    exact (String.append_empty _).symm
  | cons e es =>
    rw [if_pos (by simp)]
    rw [if_pos (joinLines_two_ne ti "" (b :: successBlocksNE sp))]
    rw [joinLines_blocksNE sp ti b]
    apply String.ext
    simp [String.data_append]

/-- Witness for C4: the spec scenario of a success X, an absent provider
and a failing provider yields exactly the title block, the body, the
failure header and the tagged failure line. -/
theorem report_format_witness :
    successPairs translations_en [demoA, demoB, demoC] ≠ []
    ∧ runPlatforms translations_en [demoA, demoB, demoC]
        = "## OpenAI Account Quota\n\nX\n\n❌ Failed to query accounts:\n[C] boom" :=
  ⟨by decide,
    (report_format translations_en [demoA, demoB, demoC] (by decide)).trans (by decide)⟩

/-- C5 counterexample: a provider fulfilling with the whitespace-only
body of one blank is kept as a success entry of the merge, refuting the
claim that a blank (whitespace-only) body is dropped like Absent. -/
theorem blank_body_kept_counterexample :
    successPairs translations_en [demoBlank]
        = [("## OpenAI Account Quota", " ")]
    ∧ (collectAll translations_en [demoBlank]).1 = ["## OpenAI Account Quota", "", " "]
    ∧ (collectAll translations_en [demoBlank]).1 ≠ [] := by
  refine ⟨by decide, by decide, by decide⟩

/-- C5 amended: only a Success whose rendered body is exactly the empty
string is treated like Absent by the merge, producing no success entry
and no error entry (a whitespace-only body is kept as a success entry). -/
theorem empty_body_dropped (tr : Translations) (pre post : List PlatformQuery)
    (p : PlatformQuery) (r : QueryResult)
    (hout : platformOutcome tr p = some r) (_hsu : r.success = true)
    (hbody : r.output = some "") (herr : optTruthy r.error = false) :
    runPlatforms tr (pre ++ p :: post) = runPlatforms tr (pre ++ post)
    ∧ successPairs tr (pre ++ p :: post) = successPairs tr (pre ++ post)
    ∧ failureMsgs tr (pre ++ p :: post) = failureMsgs tr (pre ++ post) := by
  have hot : optTruthy r.output = false := by
    simp [hbody, optTruthy]
  have hstep : ∀ acc : List String × List String, collectStep tr acc p = acc := by
    intro acc
    simp [collectStep, collectResult, hout, hot, herr]
  refine ⟨?_, ?_, ?_⟩
  · unfold runPlatforms
    rw [collectAll_skip tr pre post p hstep]
  · simp only [successPairs]
    apply filterMap_skip
    simp [hout, isSuccessEntry, hot]
  · simp only [failureMsgs]
    apply filterMap_skip
    simp [hout, isSuccessEntry, hot, herr]

/-- Witness for C5 amended: adding an empty-body provider to a registry
leaves the report unchanged. -/
theorem empty_body_dropped_witness :
    runPlatforms translations_en [demoA, demoEmpty] = runPlatforms translations_en [demoA] :=
  (empty_body_dropped translations_en [demoA] [] demoEmpty
    { success := true, output := some "" } (by decide) rfl rfl rfl).1

/-- C7: a provider whose query operation signals absent configuration
(a null outcome, as queryCopilotUsage returns for missing auth data, a
non-oauth type, or a missing token) contributes nothing to the report:
removing it from the registry changes neither the success list, nor the
error list, nor the report. -/
theorem absent_not_reported (tr : Translations) (pre post : List PlatformQuery)
    (p : PlatformQuery) (h : platformOutcome tr p = none) :
    runPlatforms tr (pre ++ p :: post) = runPlatforms tr (pre ++ post)
    ∧ successPairs tr (pre ++ p :: post) = successPairs tr (pre ++ post)
    ∧ failureMsgs tr (pre ++ p :: post) = failureMsgs tr (pre ++ post) := by
  have hstep : ∀ acc : List String × List String, collectStep tr acc p = acc := by
    intro acc
    simp [collectStep, collectResult, h]
  refine ⟨?_, ?_, ?_⟩
  · unfold runPlatforms
    rw [collectAll_skip tr pre post p hstep]
  · simp only [successPairs]
    apply filterMap_skip
    simp [h]
  · simp only [failureMsgs]
    apply filterMap_skip
    simp [h]

/-- Witness for C7: a Copilot registration with no auth entry resolves to
null through queryCopilotUsage and the run reports exactly what it
reports without it. -/
theorem absent_not_reported_witness :
    runPlatforms translations_en [demoA, demoCopilotAbsent]
      = runPlatforms translations_en [demoA] :=
  (absent_not_reported translations_en [demoA] [] demoCopilotAbsent (by decide)).1

/-- C8: in a registry of size at least two where one task throws
synchronously, that task contributes exactly its tagged failure message
while the contributions of every other task to the success list and the
error list are exactly what they contribute with the throwing provider
replaced by any other registration. -/
theorem isolation_sync_throw (tr : Translations) (pre post : List PlatformQuery)
    (p : PlatformQuery) (m : String)
    (_hlen : 2 ≤ (pre ++ p :: post).length) (hb : p.behavior = .throwsSync m) :
    successPairs tr (pre ++ p :: post) = successPairs tr pre ++ successPairs tr post
    ∧ failureMsgs tr (pre ++ p :: post)
        = failureMsgs tr pre ++ ("[" ++ p.name ++ "] " ++ m) :: failureMsgs tr post
    ∧ ∀ q : PlatformQuery,
        successPairs tr (pre ++ q :: post)
          = successPairs tr pre ++ successPairs tr [q] ++ successPairs tr post
        ∧ failureMsgs tr (pre ++ q :: post)
          = failureMsgs tr pre ++ failureMsgs tr [q] ++ failureMsgs tr post := by
  have hout : platformOutcome tr p = some (caughtFailure p.name m) := by
    simp [platformOutcome, settledToResult, queryWithTimeout, hb]
  have hsplit : ∀ (q : PlatformQuery), pre ++ q :: post = (pre ++ [q]) ++ post := by
    intro q
    simp
  refine ⟨?_, ?_, ?_⟩
  · simp only [successPairs]
    rw [hsplit p, List.filterMap_append, List.filterMap_append, List.filterMap_cons]
    simp [hout, isSuccessEntry, caughtFailure]
  · simp only [failureMsgs]
    rw [hsplit p, List.filterMap_append, List.filterMap_append, List.filterMap_cons]
    have he : optTruthy (some ("[" ++ p.name ++ "] " ++ m)) = true := by
      simp [optTruthy]
      exact bracket_ne_empty _ _
    simp [hout, isSuccessEntry, caughtFailure, he]
  · intro q
    constructor
    · simp only [successPairs]
      rw [hsplit q, List.filterMap_append, List.filterMap_append]
    · simp only [failureMsgs]
      rw [hsplit q, List.filterMap_append, List.filterMap_append]

/-- Witness for C8: next to one successful provider, a synchronously
throwing task surfaces as its tagged message appended after the (empty)
failure contribution of the others. -/
theorem isolation_sync_throw_witness :
    failureMsgs translations_en [demoA, demoThrow]
      = failureMsgs translations_en [demoA] ++ ["[T] kaboom"] :=
  (isolation_sync_throw translations_en [demoA] [] demoThrow "kaboom"
    (by decide) rfl).2.1

/-- C10: queryCopilotUsage never rejects; it returns null exactly when
the auth data is missing, not oauth-typed, or has a falsy refresh token,
and otherwise returns the formatted usage as a success on an ok fetch,
the localized copilotApiError message as a failure on a non-ok response,
and the thrown error message as a failure on a rejected fetch. -/
theorem copilot_never_rejects (authData : Option CopilotAuthData)
    (world : CopilotFetchWorld) (tr : Translations) :
    (queryCopilotUsage authData world tr = none ↔
      authData = none
      ∨ ∃ a, authData = some a ∧ (a.type ≠ "oauth" ∨ optTruthy a.refresh = false))
    ∧ ∀ a, authData = some a → a.type = "oauth" → optTruthy a.refresh = true →
        queryCopilotUsage authData world tr
          = (match world with
             | .success out => some { success := true, output := some out, error := none }
             | .httpError st tx =>
               some { success := false, output := none, error := some (tr.copilotApiError st tx) }
             | .reject msg =>
               some { success := false, output := none, error := some msg }) := by
  constructor
  · cases authData with
    | none => simp [queryCopilotUsage]
    | some a =>
      by_cases hc : a.type ≠ "oauth" ∨ ¬ optTruthy a.refresh
      · simp only [queryCopilotUsage, if_pos hc]
        simp only [Bool.not_eq_true] at hc
        simp [hc]
      · simp only [queryCopilotUsage, if_neg hc]
        push_neg at hc
        constructor
        · intro habs
          cases world <;> simp [fetchCopilotUsage] at habs
        · rintro (h | ⟨a2, ha2, hbad⟩)
          · exact absurd h (by simp)
          · obtain rfl : a2 = a := Option.some_inj.mp ha2.symm
            rcases hbad with hbad | hbad
            · exact absurd hc.1 hbad
            · rw [hbad] at hc
              exact absurd hc.2 (by decide)
  · intro a ha htype htruth
    subst ha
    have hc : ¬ (a.type ≠ "oauth" ∨ ¬ optTruthy a.refresh) := by
      simp [htype, htruth]
    simp only [queryCopilotUsage, if_neg hc]
    cases world <;> rfl

/-- Witness for C10: a valid oauth credential meeting a 403 response
yields a failure carrying the localized API-error message. -/
theorem copilot_never_rejects_witness :
    queryCopilotUsage (some { type := "oauth", refresh := some "tok" })
        (.httpError 403 "forbidden") translations_en
      = some { success := false, output := none
               error := some (translations_en.copilotApiError 403 "forbidden") } :=
  (copilot_never_rejects (some { type := "oauth", refresh := some "tok" })
    (.httpError 403 "forbidden") translations_en).2
    { type := "oauth", refresh := some "tok" } rfl rfl (by decide)

end MyStatus
